import Mathlib

/-!
# Attendance Lifeline: verification of the arithmetic core

Shallow embedding of the computational core of `software.py`.  The Python
source works with machine floats; the embedding idealises those as exact
rationals (`ℚ`), with class counts as naturals and the solver results as
integers, matching `math.ceil` / `math.floor` returning Python ints.
-/

namespace AttendanceLifeline

/-- Embedding of `calculate_required_classes` (software.py lines 50-65).
Returns `(x_min, current_percent, projected_percent)`. -/
def calculate_required_classes (c_att c_total : ℕ) (p_req : ℚ) : ℤ × ℚ × ℚ :=
  let current_percent : ℚ := ((c_att : ℚ) / (c_total : ℚ)) * 100
  if p_req ≤ current_percent then (0, current_percent, current_percent)
  else if p_req = 100 then (-1, current_percent, 0)
  else
    let R : ℚ := p_req / 100
    let numerator : ℚ := R * (c_total : ℚ) - (c_att : ℚ)
    let denominator : ℚ := 1 - R
    let x_float : ℚ := numerator / denominator
    let x_min : ℤ := ⌈x_float⌉
    let projected_percent : ℚ :=
      (((c_att : ℚ) + (x_min : ℚ)) / ((c_total : ℚ) + (x_min : ℚ))) * 100
    (x_min, current_percent, projected_percent)

/-- The floored inner quantity `m_int = floor(x - (R*(c_total+x) - c_att))`
shared by the missable-classes search (software.py lines 71-72) and the
missable-series loop (lines 169-170). -/
def missableRaw (c_att c_total : ℕ) (p_req : ℚ) (x : ℕ) : ℤ :=
  ⌊(x : ℚ) - (p_req / 100 * ((c_total : ℚ) + (x : ℚ)) - (c_att : ℚ))⌋

/-- The `for x in range(1, max_future_classes + 1)` loop of
`calculate_max_missable_classes`, as structural recursion on the number of
remaining iterations. -/
def maxMissableLoop (c_att c_total : ℕ) (p_req : ℚ) : ℕ → ℕ → ℤ × ℕ
  | _, 0 => (0, 0)
  | x, fuel + 1 =>
    if 0 ≤ missableRaw c_att c_total p_req x then
      (missableRaw c_att c_total p_req x, x)
    else
      maxMissableLoop c_att c_total p_req (x + 1) fuel

/-- Embedding of `calculate_max_missable_classes` (software.py lines 68-75).
The Python default for `max_future_classes` is 50; the caller passes it
explicitly here. -/
def calculate_max_missable_classes (c_att c_total : ℕ) (p_req : ℚ)
    (max_future_classes : ℕ) : ℤ × ℕ :=
  maxMissableLoop c_att c_total p_req 1 max_future_classes

/-- One value of the missable-series loop (software.py lines 168-171):
`max(0, m_int)` for window size `x`. -/
def missableValue (c_att c_total : ℕ) (p_req : ℚ) (x : ℕ) : ℤ :=
  max 0 (missableRaw c_att c_total p_req x)

/-- The missable series of software.py lines 165-176: one `(window, value)`
pair per requested window size, in order.  (The source zips the window list
`future_classes_range` with the value list `missable_data` when building the
chart's data frame.) -/
def computeMissableSeries (c_att c_total : ℕ) (p_req : ℚ)
    (windows : List ℕ) : List (ℕ × ℤ) :=
  windows.map (fun x => (x, missableValue c_att c_total p_req x))

/- ### Branch lemmas for the required-classes solver -/

lemma current_percent_eq (c_att c_total : ℕ) (p_req : ℚ) :
    (calculate_required_classes c_att c_total p_req).2.1 =
      ((c_att : ℚ) / (c_total : ℚ)) * 100 := by
  simp only [calculate_required_classes]
  split
  · rfl
  · split
    · rfl
    · rfl

lemma required_deficit_eq (c_att c_total : ℕ) (p_req : ℚ)
    (hcur : ((c_att : ℚ) / (c_total : ℚ)) * 100 < p_req) (h100 : p_req ≠ 100) :
    (calculate_required_classes c_att c_total p_req).1 =
      ⌈(p_req / 100 * (c_total : ℚ) - (c_att : ℚ)) / (1 - p_req / 100)⌉ := by
  simp [calculate_required_classes, not_le.mpr hcur, h100]

lemma required_eval (c_att c_total : ℕ) (p_req : ℚ) (x : ℤ)
    (hcur : ((c_att : ℚ) / (c_total : ℚ)) * 100 < p_req) (h100 : p_req ≠ 100)
    (hx : ⌈(p_req / 100 * (c_total : ℚ) - (c_att : ℚ)) / (1 - p_req / 100)⌉ = x) :
    calculate_required_classes c_att c_total p_req =
      (x, ((c_att : ℚ) / (c_total : ℚ)) * 100,
          (((c_att : ℚ) + (x : ℚ)) / ((c_total : ℚ) + (x : ℚ))) * 100) := by
  simp [calculate_required_classes, not_le.mpr hcur, h100, hx]

lemma deficit_pos (c_att c_total : ℕ) (p_req : ℚ) (hT : 1 ≤ c_total)
    (hcur : ((c_att : ℚ) / (c_total : ℚ)) * 100 < p_req) (h100 : p_req < 100) :
    1 ≤ (calculate_required_classes c_att c_total p_req).1 := by
  rw [required_deficit_eq c_att c_total p_req hcur (ne_of_lt h100)]
  have hT0 : (0 : ℚ) < (c_total : ℚ) := by exact_mod_cast hT
  have hAratio : (c_att : ℚ) / (c_total : ℚ) < p_req / 100 := by linarith
  have hA : (c_att : ℚ) < p_req / 100 * (c_total : ℚ) :=
    (div_lt_iff₀ hT0).mp hAratio
  have hpos : 0 < (p_req / 100 * (c_total : ℚ) - (c_att : ℚ)) / (1 - p_req / 100) :=
    div_pos (by linarith) (by linarith)
  exact Int.ceil_pos.mpr hpos

/- ### Theorems for the simpler claims -/

/-- C3: on valid inputs with the current percentage already at or above the
target, `calculate_required_classes` returns `minAdditional = 0`,
and both the current and the projected percentage equal the current
percentage `c_att / c_total * 100`. -/
theorem already_met (c_att c_total : ℕ) (p_req : ℚ)
    (hAT : c_att ≤ c_total) (hT : 1 ≤ c_total)
    (h : p_req ≤ ((c_att : ℚ) / (c_total : ℚ)) * 100) :
    calculate_required_classes c_att c_total p_req =
      (0, ((c_att : ℚ) / (c_total : ℚ)) * 100,
          ((c_att : ℚ) / (c_total : ℚ)) * 100) := by
  simp [calculate_required_classes, h]

/-- Witness for C3 at `c_att = 10, c_total = 15, p_req = 60`. -/
theorem already_met_witness :
    (10 : ℕ) ≤ 15 ∧ (1 : ℕ) ≤ 15 ∧
      (60 : ℚ) ≤ (((10 : ℕ) : ℚ) / ((15 : ℕ) : ℚ)) * 100 ∧
      calculate_required_classes 10 15 60 =
        (0, (((10 : ℕ) : ℚ) / ((15 : ℕ) : ℚ)) * 100,
            (((10 : ℕ) : ℚ) / ((15 : ℕ) : ℚ)) * 100) :=
  ⟨by decide, by decide, by norm_num,
    already_met 10 15 60 (by decide) (by decide) (by norm_num)⟩

/-- C4: with `requiredPercent = 100` and `classesAttended < totalClasses`,
`calculate_required_classes` returns the sentinel `-1` with
`projectedPercent = 0` (an ordinary return value of the total function;
no fault is raised). -/
theorem unreachable_target (c_att c_total : ℕ) (hAT : c_att < c_total) :
    calculate_required_classes c_att c_total 100 =
      (-1, ((c_att : ℚ) / (c_total : ℚ)) * 100, 0) := by
  have hT0 : (0 : ℚ) < (c_total : ℚ) := by
    exact_mod_cast Nat.lt_of_le_of_lt (Nat.zero_le c_att) hAT
  have hlt : ((c_att : ℚ) / (c_total : ℚ)) * 100 < 100 := by
    have hratio : (c_att : ℚ) / (c_total : ℚ) < 1 := by
      rw [div_lt_one hT0]
      exact_mod_cast hAT
    linarith
  simp [calculate_required_classes, not_le.mpr hlt]

/-- Witness for C4 at `c_att = 0, c_total = 5`. -/
theorem unreachable_target_witness :
    (0 : ℕ) < 5 ∧
      calculate_required_classes 0 5 100 =
        (-1, (((0 : ℕ) : ℚ) / ((5 : ℕ) : ℚ)) * 100, 0) :=
  ⟨by decide, unreachable_target 0 5 (by decide)⟩

/-- C8: both core functions are pure Lean functions of their arguments, so
two invocations with identical arguments yield identical results; the
embedding has no state besides arguments and return values. -/
theorem deterministic (c_att c_total : ℕ) (p_req : ℚ) (maxF : ℕ) :
    calculate_required_classes c_att c_total p_req =
        calculate_required_classes c_att c_total p_req ∧
      calculate_max_missable_classes c_att c_total p_req maxF =
        calculate_max_missable_classes c_att c_total p_req maxF :=
  ⟨rfl, rfl⟩

/-- C7 counterexample: on input `(10, 15, 75)` the returned current
percentage is `200/3 = 66.666...`, not `66.67`; the spec's `66.67` is a
two-decimal display rounding of the returned value. -/
theorem example_current_percent_cex :
    (calculate_required_classes 10 15 75).2.1 ≠ 6667 / 100 := by
  rw [current_percent_eq]
  norm_num

/-- C7 (amended): on input `(10, 15, 75)` the function returns
`minAdditional = 5`, `currentPercent = 200/3` (whose two-decimal rounding is
`66.67`), and `projectedPercent = 75`. -/
theorem example_10_15_75 :
    calculate_required_classes 10 15 75 = (5, 200 / 3, 75) ∧
      ⌊(calculate_required_classes 10 15 75).2.1 * 100 + 1 / 2⌋ = (6667 : ℤ) := by
  have h : calculate_required_classes 10 15 75 = (5, 200 / 3, 75) := by
    rw [required_eval 10 15 75 5 (by norm_num) (by norm_num)
      (by rw [show ((75 : ℚ) / 100 * ((15 : ℕ) : ℚ) - ((10 : ℕ) : ℚ)) /
            (1 - 75 / 100) = 5 by norm_num]; norm_num)]
    norm_num
  refine ⟨h, ?_⟩
  rw [h]
  rw [show (200 / 3 : ℚ) * 100 + 1 / 2 = 40003 / 6 by norm_num]
  rw [Int.floor_eq_iff]
  norm_num

/-- C6 counterexample: with `c_att = 1, c_total = 2` and targets
`p1 = 50 ≤ p2 = 100`, the solver returns `0` for `p1` but the sentinel `-1`
for `p2`, so raising the target strictly decreased the returned
`minAdditional`. -/
theorem required_monotone_cex :
    (50 : ℚ) ≤ 100 ∧ (1 : ℕ) ≤ 2 ∧
      (calculate_required_classes 1 2 100).1 <
        (calculate_required_classes 1 2 50).1 := by
  refine ⟨by norm_num, by decide, ?_⟩
  have h1 : (calculate_required_classes 1 2 100).1 = -1 := by
    norm_num [calculate_required_classes]
  have h2 : (calculate_required_classes 1 2 50).1 = 0 := by
    norm_num [calculate_required_classes]
  rw [h1, h2]
  decide

/- ### Correctness of the deficit-branch solver (C1, C9, C6 amended) -/

/-- C1: on valid inputs with `requiredPercent < 100` and
`currentPercent < requiredPercent`, the returned `minAdditional = x` is
non-negative, brings the ratio `(c_att + x)/(c_total + x)` to at least
`p_req/100`, and is minimal: one class fewer leaves the ratio strictly
below the target. -/
theorem min_additional_spec (c_att c_total : ℕ) (p_req : ℚ)
    (hAT : c_att ≤ c_total) (hT : 1 ≤ c_total) (h100 : p_req < 100)
    (hcur : ((c_att : ℚ) / (c_total : ℚ)) * 100 < p_req) :
    0 ≤ (calculate_required_classes c_att c_total p_req).1 ∧
      p_req / 100 ≤
        ((c_att : ℚ) + ((calculate_required_classes c_att c_total p_req).1 : ℚ)) /
          ((c_total : ℚ) + ((calculate_required_classes c_att c_total p_req).1 : ℚ)) ∧
      ((c_att : ℚ) + ((calculate_required_classes c_att c_total p_req).1 : ℚ) - 1) /
          ((c_total : ℚ) + ((calculate_required_classes c_att c_total p_req).1 : ℚ) - 1) <
        p_req / 100 := by
  have hret := required_deficit_eq c_att c_total p_req hcur (ne_of_lt h100)
  rw [hret]
  have hT0 : (0 : ℚ) < (c_total : ℚ) := by exact_mod_cast hT
  have hden : (0 : ℚ) < 1 - p_req / 100 := by linarith
  have hA : (c_att : ℚ) < p_req / 100 * (c_total : ℚ) :=
    (div_lt_iff₀ hT0).mp (by linarith)
  have hqpos : 0 < (p_req / 100 * (c_total : ℚ) - (c_att : ℚ)) / (1 - p_req / 100) :=
    div_pos (by linarith) hden
  have hx1 : (1 : ℤ) ≤ ⌈(p_req / 100 * (c_total : ℚ) - (c_att : ℚ)) / (1 - p_req / 100)⌉ :=
    Int.ceil_pos.mpr hqpos
  have hx1Q : (1 : ℚ) ≤
      ((⌈(p_req / 100 * (c_total : ℚ) - (c_att : ℚ)) / (1 - p_req / 100)⌉ : ℤ) : ℚ) := by
    exact_mod_cast hx1
  have hle :
      (p_req / 100 * (c_total : ℚ) - (c_att : ℚ)) / (1 - p_req / 100) ≤
        ((⌈(p_req / 100 * (c_total : ℚ) - (c_att : ℚ)) / (1 - p_req / 100)⌉ : ℤ) : ℚ) :=
    Int.le_ceil _
  have hlt :
      ((⌈(p_req / 100 * (c_total : ℚ) - (c_att : ℚ)) / (1 - p_req / 100)⌉ : ℤ) : ℚ) - 1 <
        (p_req / 100 * (c_total : ℚ) - (c_att : ℚ)) / (1 - p_req / 100) := by
    have := Int.ceil_lt_add_one
      ((p_req / 100 * (c_total : ℚ) - (c_att : ℚ)) / (1 - p_req / 100))
    linarith
  have hmul1 : p_req / 100 * (c_total : ℚ) - (c_att : ℚ) ≤
      ((⌈(p_req / 100 * (c_total : ℚ) - (c_att : ℚ)) / (1 - p_req / 100)⌉ : ℤ) : ℚ) *
        (1 - p_req / 100) :=
    (div_le_iff₀ hden).mp hle
  have hmul2 :
      (((⌈(p_req / 100 * (c_total : ℚ) - (c_att : ℚ)) / (1 - p_req / 100)⌉ : ℤ) : ℚ) - 1) *
          (1 - p_req / 100) <
        p_req / 100 * (c_total : ℚ) - (c_att : ℚ) :=
    (lt_div_iff₀ hden).mp hlt
  have hTx : (0 : ℚ) <
      (c_total : ℚ) +
        ((⌈(p_req / 100 * (c_total : ℚ) - (c_att : ℚ)) / (1 - p_req / 100)⌉ : ℤ) : ℚ) := by
    linarith
  have hTx1 : (0 : ℚ) <
      (c_total : ℚ) +
        ((⌈(p_req / 100 * (c_total : ℚ) - (c_att : ℚ)) / (1 - p_req / 100)⌉ : ℤ) : ℚ) - 1 := by
    linarith
  refine ⟨by omega, ?_, ?_⟩
  · rw [le_div_iff₀ hTx]
    nlinarith [hmul1]
  · rw [div_lt_iff₀ hTx1]
    nlinarith [hmul2]

/-- Witness for C1 at `(10, 15, 75)`. -/
theorem min_additional_spec_witness :
    (10 : ℕ) ≤ 15 ∧ (1 : ℕ) ≤ 15 ∧ (75 : ℚ) < 100 ∧
      (((10 : ℕ) : ℚ) / ((15 : ℕ) : ℚ)) * 100 < 75 ∧
      (0 ≤ (calculate_required_classes 10 15 75).1 ∧
        (75 : ℚ) / 100 ≤
          (((10 : ℕ) : ℚ) + ((calculate_required_classes 10 15 75).1 : ℚ)) /
            (((15 : ℕ) : ℚ) + ((calculate_required_classes 10 15 75).1 : ℚ)) ∧
        (((10 : ℕ) : ℚ) + ((calculate_required_classes 10 15 75).1 : ℚ) - 1) /
            (((15 : ℕ) : ℚ) + ((calculate_required_classes 10 15 75).1 : ℚ) - 1) <
          (75 : ℚ) / 100) :=
  ⟨by decide, by decide, by norm_num, by norm_num,
    min_additional_spec 10 15 75 (by decide) (by decide) (by norm_num) (by norm_num)⟩

/-- C9: in the deficit case (`currentPercent < requiredPercent < 100` on a
valid input) the returned `minAdditional` is at least `1`, and the
denominator `c_total + minAdditional` of the projected percentage is
positive. -/
theorem min_additional_pos (c_att c_total : ℕ) (p_req : ℚ)
    (hAT : c_att ≤ c_total) (hT : 1 ≤ c_total)
    (hcur : ((c_att : ℚ) / (c_total : ℚ)) * 100 < p_req) (h100 : p_req < 100) :
    1 ≤ (calculate_required_classes c_att c_total p_req).1 ∧
      (0 : ℚ) < (c_total : ℚ) + ((calculate_required_classes c_att c_total p_req).1 : ℚ) := by
  have h1 := deficit_pos c_att c_total p_req hT hcur h100
  have hT0 : (0 : ℚ) < (c_total : ℚ) := by exact_mod_cast hT
  have h1Q : (1 : ℚ) ≤ ((calculate_required_classes c_att c_total p_req).1 : ℚ) := by
    exact_mod_cast h1
  exact ⟨h1, by linarith⟩

/-- Witness for C9 at `(10, 15, 75)`. -/
theorem min_additional_pos_witness :
    (10 : ℕ) ≤ 15 ∧ (1 : ℕ) ≤ 15 ∧
      (((10 : ℕ) : ℚ) / ((15 : ℕ) : ℚ)) * 100 < 75 ∧ (75 : ℚ) < 100 ∧
      (1 ≤ (calculate_required_classes 10 15 75).1 ∧
        (0 : ℚ) < ((15 : ℕ) : ℚ) + ((calculate_required_classes 10 15 75).1 : ℚ)) :=
  ⟨by decide, by decide, by norm_num, by norm_num,
    min_additional_pos 10 15 75 (by decide) (by decide) (by norm_num) (by norm_num)⟩

/-- C6 (amended): on valid inputs, raising the target percentage never
decreases the returned `minAdditional`, provided the higher target is below
`100` (at exactly `100` the function instead returns the sentinel `-1`,
which breaks monotonicity as the counterexample shows). -/
theorem required_monotone (c_att c_total : ℕ) (p1 p2 : ℚ)
    (hAT : c_att ≤ c_total) (hT : 1 ≤ c_total)
    (h12 : p1 ≤ p2) (h2 : p2 < 100) :
    (calculate_required_classes c_att c_total p1).1 ≤
      (calculate_required_classes c_att c_total p2).1 := by
  by_cases hc2 : p2 ≤ ((c_att : ℚ) / (c_total : ℚ)) * 100
  · have hc1 : p1 ≤ ((c_att : ℚ) / (c_total : ℚ)) * 100 := le_trans h12 hc2
    have e1 : (calculate_required_classes c_att c_total p1).1 = 0 := by
      simp [calculate_required_classes, hc1]
    have e2 : (calculate_required_classes c_att c_total p2).1 = 0 := by
      simp [calculate_required_classes, hc2]
    rw [e1, e2]
  · push_neg at hc2
    have h2pos : 1 ≤ (calculate_required_classes c_att c_total p2).1 :=
      deficit_pos c_att c_total p2 hT hc2 h2
    by_cases hc1 : p1 ≤ ((c_att : ℚ) / (c_total : ℚ)) * 100
    · have e1 : (calculate_required_classes c_att c_total p1).1 = 0 := by
        simp [calculate_required_classes, hc1]
      rw [e1]
      omega
    · push_neg at hc1
      have h1lt : p1 < 100 := lt_of_le_of_lt h12 h2
      rw [required_deficit_eq c_att c_total p1 hc1 (ne_of_lt h1lt),
        required_deficit_eq c_att c_total p2 hc2 (ne_of_lt h2)]
      apply Int.ceil_le_ceil
      have hT0 : (0 : ℚ) < (c_total : ℚ) := by exact_mod_cast hT
      have hd1 : (0 : ℚ) < 1 - p1 / 100 := by linarith
      have hd2 : (0 : ℚ) < 1 - p2 / 100 := by linarith
      rw [div_le_div_iff₀ hd1 hd2]
      have hTA : (0 : ℚ) ≤ (c_total : ℚ) - (c_att : ℚ) := by
        have : (c_att : ℚ) ≤ (c_total : ℚ) := by exact_mod_cast hAT
        linarith
      nlinarith [mul_nonneg (by linarith : (0 : ℚ) ≤ p2 / 100 - p1 / 100) hTA]

/-- Witness for C6 (amended) at `(10, 15)`, targets `60 ≤ 75 < 100`. -/
theorem required_monotone_witness :
    (10 : ℕ) ≤ 15 ∧ (1 : ℕ) ≤ 15 ∧ (60 : ℚ) ≤ 75 ∧ (75 : ℚ) < 100 ∧
      (calculate_required_classes 10 15 60).1 ≤
        (calculate_required_classes 10 15 75).1 :=
  ⟨by decide, by decide, by norm_num, by norm_num,
    required_monotone 10 15 60 75 (by decide) (by decide) (by norm_num) (by norm_num)⟩

/- ### The missable-classes search loop (C2, C10, C5) -/

lemma loop_not_found (c_att c_total : ℕ) (p_req : ℚ) (fuel : ℕ) :
    ∀ start, (∀ i, i < fuel → missableRaw c_att c_total p_req (start + i) < 0) →
      maxMissableLoop c_att c_total p_req start fuel = (0, 0) := by
  induction fuel with
  | zero => intro start _; rfl
  | succ n ih =>
    intro start h
    have h0 : missableRaw c_att c_total p_req start < 0 := by
      simpa using h 0 n.succ_pos
    have hstep : maxMissableLoop c_att c_total p_req start (n + 1) =
        maxMissableLoop c_att c_total p_req (start + 1) n := by
      simp [maxMissableLoop, not_le.mpr h0]
    rw [hstep]
    refine ih (start + 1) (fun i hi => ?_)
    have h2 := h (i + 1) (Nat.succ_lt_succ hi)
    have heq : start + 1 + i = start + (i + 1) := by omega
    rw [heq]
    exact h2

lemma loop_found (c_att c_total : ℕ) (p_req : ℚ) (fuel : ℕ) :
    ∀ start i, i < fuel → 0 ≤ missableRaw c_att c_total p_req (start + i) →
      (∀ j, j < i → missableRaw c_att c_total p_req (start + j) < 0) →
      maxMissableLoop c_att c_total p_req start fuel =
        (missableRaw c_att c_total p_req (start + i), start + i) := by
  induction fuel with
  | zero => intro start i hi _ _; exact absurd hi (Nat.not_lt_zero i)
  | succ n ih =>
    intro start i hi hpos hmin
    cases i with
    | zero =>
      have hpos0 : 0 ≤ missableRaw c_att c_total p_req start := by simpa using hpos
      simp [maxMissableLoop, hpos0]
    | succ k =>
      have h0 : missableRaw c_att c_total p_req start < 0 := by
        simpa using hmin 0 k.succ_pos
      have hstep : maxMissableLoop c_att c_total p_req start (n + 1) =
          maxMissableLoop c_att c_total p_req (start + 1) n := by
        simp [maxMissableLoop, not_le.mpr h0]
      rw [hstep]
      have heq : start + 1 + k = start + (k + 1) := by omega
      rw [← heq]
      refine ih (start + 1) k (Nat.lt_of_succ_lt_succ hi) (by rw [heq]; exact hpos)
        (fun j hj => ?_)
      have h2 := hmin (j + 1) (Nat.succ_lt_succ hj)
      have heq2 : start + 1 + j = start + (j + 1) := by omega
      rw [heq2]
      exact h2

lemma search_dichotomy (c_att c_total : ℕ) (p_req : ℚ) (maxF : ℕ) :
    (∃ x, 1 ≤ x ∧ x ≤ maxF ∧ 0 ≤ missableRaw c_att c_total p_req x ∧
        (∀ y, 1 ≤ y → y < x → missableRaw c_att c_total p_req y < 0) ∧
        calculate_max_missable_classes c_att c_total p_req maxF =
          (missableRaw c_att c_total p_req x, x)) ∨
      ((∀ x, 1 ≤ x → x ≤ maxF → missableRaw c_att c_total p_req x < 0) ∧
        calculate_max_missable_classes c_att c_total p_req maxF = (0, 0)) := by
  by_cases h : ∃ x, (1 ≤ x ∧ x ≤ maxF) ∧ 0 ≤ missableRaw c_att c_total p_req x
  · left
    refine ⟨Nat.find h, (Nat.find_spec h).1.1, (Nat.find_spec h).1.2,
      (Nat.find_spec h).2, ?_, ?_⟩
    · intro y h1y hylt
      by_contra hpos
      push_neg at hpos
      exact Nat.find_min h hylt
        ⟨⟨h1y, le_trans (le_of_lt hylt) (Nat.find_spec h).1.2⟩, hpos⟩
    · unfold calculate_max_missable_classes
      have h1 : 1 + (Nat.find h - 1) = Nat.find h := by
        have := (Nat.find_spec h).1.1
        omega
      have hfu := loop_found c_att c_total p_req maxF 1 (Nat.find h - 1)
        (by have := (Nat.find_spec h).1; omega)
        (by rw [h1]; exact (Nat.find_spec h).2)
        (fun j hj => by
          have hlt : 1 + j < Nat.find h := by omega
          by_contra hpos
          push_neg at hpos
          exact Nat.find_min h hlt
            ⟨⟨by omega, by have := (Nat.find_spec h).1.2; omega⟩, hpos⟩)
      rw [hfu, h1]
  · right
    push_neg at h
    refine ⟨fun x h1 h2 => h x ⟨h1, h2⟩, ?_⟩
    unfold calculate_max_missable_classes
    exact loop_not_found c_att c_total p_req maxF 1
      (fun i hi => h (1 + i) ⟨by omega, by omega⟩)

/-- C2: the missable-classes search scans window sizes `x = 1, 2, ...` up to
the ceiling `maxF`, evaluating `mInt = floor(x - (R*(c_total+x) - c_att))`
with `R = p_req/100`, and returns `(mInt, x)` at the first `x` whose `mInt`
is non-negative; if no such `x` exists within the ceiling it returns
`(0, 0)`. -/
theorem max_missable_search_spec (c_att c_total : ℕ) (p_req : ℚ) (maxF : ℕ) :
    (∃ x, 1 ≤ x ∧ x ≤ maxF ∧ 0 ≤ missableRaw c_att c_total p_req x ∧
        (∀ y, 1 ≤ y → y < x → missableRaw c_att c_total p_req y < 0) ∧
        calculate_max_missable_classes c_att c_total p_req maxF =
          (missableRaw c_att c_total p_req x, x)) ∨
      ((∀ x, 1 ≤ x → x ≤ maxF → missableRaw c_att c_total p_req x < 0) ∧
        calculate_max_missable_classes c_att c_total p_req maxF = (0, 0)) :=
  search_dichotomy c_att c_total p_req maxF

/-- C10: if the search returns `(m, w)` with `w ≥ 1`, then the
missable-series value at window `w` equals `m`, and at every window
`1 ≤ x < w` the unclipped inner value is negative, so the clipped series
value is `0`. -/
theorem search_agrees_with_series (c_att c_total : ℕ) (p_req : ℚ) (maxF : ℕ)
    (m : ℤ) (w : ℕ)
    (h : calculate_max_missable_classes c_att c_total p_req maxF = (m, w))
    (hw : 1 ≤ w) :
    missableValue c_att c_total p_req w = m ∧
      ∀ x, 1 ≤ x → x < w →
        missableRaw c_att c_total p_req x < 0 ∧
          missableValue c_att c_total p_req x = 0 := by
  rcases search_dichotomy c_att c_total p_req maxF with
    ⟨x, _, _, hx3, hxmin, hxeq⟩ | ⟨_, heq⟩
  · rw [h] at hxeq
    have hm : m = missableRaw c_att c_total p_req x := congrArg Prod.fst hxeq
    have hwx : w = x := congrArg Prod.snd hxeq
    subst hwx
    constructor
    · rw [hm, missableValue, max_eq_right hx3]
    · intro y h1y hyw
      have hneg := hxmin y h1y hyw
      exact ⟨hneg, by rw [missableValue, max_eq_left (le_of_lt hneg)]⟩
  · rw [h] at heq
    have hwx : w = 0 := congrArg Prod.snd heq
    omega

/-- C5: the missable series produces exactly one `(window, value)` pair per
requested window size, in the order of the input sequence, the value at
each position being `max(0, floor(x - (p_req/100*(c_total+x) - c_att)))`;
in particular every value is non-negative. -/
theorem missable_series_spec (c_att c_total : ℕ) (p_req : ℚ) (windows : List ℕ)
    (i : ℕ) (hi : i < windows.length)
    (hi2 : i < (computeMissableSeries c_att c_total p_req windows).length) :
    (computeMissableSeries c_att c_total p_req windows).length = windows.length ∧
      (computeMissableSeries c_att c_total p_req windows)[i] =
        (windows[i],
          max 0 ⌊((windows[i] : ℕ) : ℚ) -
            (p_req / 100 * ((c_total : ℚ) + ((windows[i] : ℕ) : ℚ)) - (c_att : ℚ))⌋) ∧
      0 ≤ ((computeMissableSeries c_att c_total p_req windows)[i]).2 := by
  refine ⟨by simp [computeMissableSeries], ?_, ?_⟩
  · simp [computeMissableSeries, missableValue, missableRaw]
  · simp [computeMissableSeries, missableValue]

/-- Witness for C10 at `(10, 15, 75)` with ceiling `50`: the search returns
`(0, 5)`, and the series value is `0` at window `5` and at window `3 < 5`. -/
theorem search_agrees_with_series_witness :
    calculate_max_missable_classes 10 15 75 50 = (0, 5) ∧ (1 : ℕ) ≤ 5 ∧
      missableValue 10 15 75 5 = 0 ∧
      missableRaw 10 15 75 3 < 0 ∧ missableValue 10 15 75 3 = 0 := by
  have r1 : missableRaw 10 15 75 1 = -1 := by
    unfold missableRaw; rw [Int.floor_eq_iff]; norm_num
  have r2 : missableRaw 10 15 75 2 = -1 := by
    unfold missableRaw; rw [Int.floor_eq_iff]; norm_num
  have r3 : missableRaw 10 15 75 3 = -1 := by
    unfold missableRaw; rw [Int.floor_eq_iff]; norm_num
  have r4 : missableRaw 10 15 75 4 = -1 := by
    unfold missableRaw; rw [Int.floor_eq_iff]; norm_num
  have r5 : missableRaw 10 15 75 5 = 0 := by
    unfold missableRaw; rw [Int.floor_eq_iff]; norm_num
  have hcon : calculate_max_missable_classes 10 15 75 50 = (0, 5) := by
    unfold calculate_max_missable_classes
    have hfu := loop_found 10 15 75 50 1 4 (by omega)
      (by rw [show (1 + 4 : ℕ) = 5 from rfl, r5])
      (fun j hj => by
        interval_cases j
        · rw [show (1 + 0 : ℕ) = 1 from rfl, r1]; omega
        · rw [show (1 + 1 : ℕ) = 2 from rfl, r2]; omega
        · rw [show (1 + 2 : ℕ) = 3 from rfl, r3]; omega
        · rw [show (1 + 3 : ℕ) = 4 from rfl, r4]; omega)
    rw [hfu, show (1 + 4 : ℕ) = 5 from rfl, r5]
  have main := search_agrees_with_series 10 15 75 50 0 5 hcon (by omega)
  exact ⟨hcon, by omega, main.1, (main.2 3 (by omega) (by omega)).1,
    (main.2 3 (by omega) (by omega)).2⟩

/-- Witness for C5 on the window list `[5]` at position `0`, with input
`(10, 15, 75)`. -/
theorem missable_series_spec_witness :
    (0 : ℕ) < ([5] : List ℕ).length ∧
      (0 : ℕ) < (computeMissableSeries 10 15 75 [5]).length ∧
      ((computeMissableSeries 10 15 75 [5]).length = ([5] : List ℕ).length ∧
        (computeMissableSeries 10 15 75 [5]).get ⟨0, by decide⟩ =
          (([5] : List ℕ).get ⟨0, by decide⟩,
            max 0 ⌊(((([5] : List ℕ).get ⟨0, by decide⟩ : ℕ)) : ℚ) -
              (75 / 100 * (((15 : ℕ) : ℚ) + (((([5] : List ℕ).get ⟨0, by decide⟩ : ℕ)) : ℚ)) -
                ((10 : ℕ) : ℚ))⌋) ∧
        0 ≤ ((computeMissableSeries 10 15 75 [5]).get ⟨0, by decide⟩).2) :=
  ⟨by decide, by decide, missable_series_spec 10 15 75 [5] 0 (by decide) (by decide)⟩

end AttendanceLifeline
